import Mathlib

/-!
Shallow embedding of `gptme_runloops/utils/execution.py` (gptme-contrib):
the backend execution adapters `execute_gptme`, `execute_claude_code`,
`execute_codex`, the `compile_context` helper and the `ExecutionResult`
data class.  Effectful Python is modelled by pure functions over an
explicit world record (PATH resolution, filesystem existence, process
environment, child-process outcome) that return a record of the
observable effects of one adapter invocation (result or raised
exception, built command line, stdin payload, merged child environment,
final log-file content, temporary prompt-file state, stderr
diagnostic).
-/

/-- Prefix test on character lists (used for substring checks on
concrete strings, keeping everything kernel-evaluable). -/
def listStartsWith : List Char → List Char → Bool
  | _, [] => true
  | [], _ :: _ => false
  | c :: cs, p :: ps => c == p && listStartsWith cs ps

/-- Contiguous-sublist test on character lists. -/
def listContainsSub : List Char → List Char → Bool
  | [], pat => pat.isEmpty
  | c :: cs, pat => listStartsWith (c :: cs) pat || listContainsSub cs pat

/-- `containsStr s pat` decides whether `pat` occurs contiguously in `s`. -/
def containsStr (s pat : String) : Bool :=
  listContainsSub s.toList pat.toList

/-- `strStartsWith s pre` decides whether `pre` is a prefix of `s`. -/
def strStartsWith (s pre : String) : Bool :=
  listStartsWith s.toList pre.toList

/-- A Python `dict[str, str]`-like environment, as a partial map. -/
def EnvMap : Type := String → Option String

/-- `setVar e k v` models `e[k] = v`. -/
def setVar (e : EnvMap) (k v : String) : EnvMap :=
  fun x => if x = k then some v else e x

/-- `dictUpdate base ov` models `base.update(ov)`: keys of `ov` win. -/
def dictUpdate (base ov : EnvMap) : EnvMap :=
  fun x => match ov x with
    | some v => some v
    | none => base x

/-- Python truthiness of `os.environ.get(k)`: present and non-empty.
`getTruthy e k` is `some v` exactly when `e k = some v` with `v ≠ ""`,
mirroring `v = os.environ.get(K)` followed by `if v:`. -/
def getTruthy (e : EnvMap) (k : String) : Option String :=
  match e k with
  | some v => if v = "" then none else some v
  | none => none

/-- Python exceptions that the embedded code can raise or catch. -/
inductive PyErr where
  | runtimeError (msg : String)
  | timeoutExpired
  | other (msg : String)
deriving DecidableEq

/-- `ExecutionResult` from execution.py: `success` is derived in
`__init__` as `exit_code == 0`. -/
structure ExecutionResult where
  exit_code : Int
  timed_out : Bool
  success : Bool
deriving DecidableEq

/-- `ExecutionResult(exit_code, timed_out)`: the constructor, which
derives `success = (exit_code == 0)`. -/
def ExecutionResult.make (exit_code : Int) (timed_out : Bool := false) :
    ExecutionResult :=
  ⟨exit_code, timed_out, exit_code == 0⟩

/-- Outcome of the `subprocess.run` of the compile-context script. -/
inductive ScriptRun where
  | completed (returncode : Int) (stderr : String)
  | timedOut
  | raised (msg : String)
deriving DecidableEq

/-- World seen by `compile_context`: whether
`workspace/scripts/shared/compile-context.sh` exists, how the script
run turns out, and whether/what `workspace/tmp/full-context.md` holds
afterwards. -/
structure CtxWorld where
  scriptExists : Bool
  run : ScriptRun
  artifactExists : Bool
  artifactContent : String
deriving DecidableEq

/-- The `try:` block of `compile_context` (lines 44-69): run the
script; non-zero exit gives `""`; on exit 0 read
`tmp/full-context.md` if present, else warn and give `""`.  A timeout
or other exception escapes as an error, to be caught by the handlers. -/
def compile_context_try (w : CtxWorld) : Except PyErr String :=
  match w.run with
  | .timedOut => .error .timeoutExpired
  | .raised m => .error (.other m)
  | .completed rc _ =>
    if rc ≠ 0 then .ok ""
    else if w.artifactExists then .ok w.artifactContent
    else .ok ""

/-- `compile_context` (execution.py lines 20-76): early-return `""`
when the script is absent; otherwise run the `try:` block with the
`except subprocess.TimeoutExpired` / `except Exception` handlers both
returning `""`.  Total: it never raises. -/
def compile_context (w : CtxWorld) : String :=
  if !w.scriptExists then ""
  else
    match compile_context_try w with
    | .ok s => s
    | .error .timeoutExpired => ""
    | .error _ => ""

/-- The context world in which the compiler script is simply absent. -/
def emptyCtxWorld : CtxWorld :=
  ⟨false, .completed 0 "", false, ""⟩

/-- `ctxFails w` decides that `w` is one of the failure cases of
`compile_context`: script absent, script exit non-zero, script timeout
or other exception, or exit 0 with `tmp/full-context.md` missing. -/
def ctxFails (w : CtxWorld) : Bool :=
  !w.scriptExists ||
  (match w.run with
   | .completed rc _ => rc != 0 || !w.artifactExists
   | .timedOut => true
   | .raised _ => true)

/-- Outcome of one `subprocess.run` of the teed shell pipeline
`backend 2>&1 | tee logfile`: the backend child and `tee` each exit
with a code and the interleaved output has been streamed, or the
wall-clock timeout fires (with whatever partial output was streamed),
or `subprocess.run` raises some other exception. -/
inductive ChildRun where
  | completed (childExit teeExit : Int) (output : String)
  | timedOut (outSoFar : String)
  | raised (msg : String) (outSoFar : String)
deriving DecidableEq

/-- Exit status of the two-stage shell pipeline `child | tee`.
Without `pipefail` (POSIX sh default) the pipeline reports the LAST
command's status, i.e. tee's.  With `set -o pipefail` (bash) it
reports the rightmost non-zero status, or zero. -/
def pipelineExit (pipefail : Bool) (childExit teeExit : Int) : Int :=
  if pipefail then (if teeExit ≠ 0 then teeExit else childExit)
  else teeExit

/-- Operations performed on a single log file, in order. -/
inductive FileOp where
  | openWrite (s : String)
  | teeTruncWrite (s : String)
  | append (s : String)
deriving DecidableEq

/-- Semantics of one file operation on the current content:
`open("w")` + write truncates then writes; `tee FILE` (no `-a`) opens
its file argument with truncation at pipeline start and writes the
streamed output; `open("a")` + write appends. -/
def applyFileOp (content : String) : FileOp → String
  | .openWrite s => s
  | .teeTruncWrite s => s
  | .append s => content ++ s

/-- Final content of a log file after a sequence of operations. -/
def applyFileOps (ops : List FileOp) : String :=
  ops.foldl applyFileOp ""

/-- Log-file operation sequence shared by all three adapters: write
the header with `open("w")`, then the tee pipeline truncates the file
and streams the child output into it, then the trailer (exit code, or
timeout status) is appended; when `subprocess.run` raises a
non-timeout exception no trailer is written. -/
def teeLogOps (header : String) (pipefail : Bool) (run : ChildRun)
    (timeout : Nat) : List FileOp :=
  FileOp.openWrite header ::
  (match run with
   | .completed c t out =>
     [.teeTruncWrite out,
      .append ("\n=== Execution completed ===\nExit code: " ++
        toString (pipelineExit pipefail c t) ++ "\n")]
   | .timedOut po =>
     [.teeTruncWrite po,
      .append ("\n=== Execution timed out ===\nStatus: TIMED OUT after " ++
        toString timeout ++ "s\n")]
   | .raised _ po => [.teeTruncWrite po])

/-- The exit-code trailer appended on normal completion. -/
def exitTrailer (rc : Int) : String :=
  "\n=== Execution completed ===\nExit code: " ++ toString rc ++ "\n"

/-- The timeout trailer appended when the run times out. -/
def timeoutTrailer (timeout : Nat) : String :=
  "\n=== Execution timed out ===\nStatus: TIMED OUT after " ++
    toString timeout ++ "s\n"

/-- Characters `shlex.quote` leaves unquoted: alphanumerics plus
`_ @ % + = : , . / -` (each separated here to avoid comment tokens). -/
def shlexSafe (c : Char) : Bool :=
  c.isAlphanum || c = '_' || c = '@' || c = '%' || c = '+' || c = '=' ||
    c = ':' || c = ',' || c = '.' || c = '/' || c = '-'

/-- Python `shlex.quote`. -/
def shlexQuote (s : String) : String :=
  if s = "" then "\x27\x27"
  else if s.toList.all shlexSafe then s
  else "\x27" ++ s.replace "\x27" "\x27\x22\x27\x22\x27" ++ "\x27"

/-- Python `shlex.join`. -/
def shlexJoin (xs : List String) : String :=
  String.intercalate " " (xs.map shlexQuote)

/-- Python `" ".join`. -/
def joinSpace (xs : List String) : String :=
  String.intercalate " " xs

/-- Zero-padded two-digit rendering used by `strftime`. -/
def fmt2 (n : Nat) : String :=
  if n < 10 then "0" ++ toString n else toString n

/-- A wall-clock instant, to second resolution. -/
structure Timestamp where
  year : Nat
  month : Nat
  day : Nat
  hour : Nat
  minute : Nat
  second : Nat
deriving DecidableEq

/-- `datetime.now().strftime("%Y%m%d-%H%M%S")`: the log-file
timestamp, second resolution. -/
def fmtTimestamp (t : Timestamp) : String :=
  toString t.year ++ fmt2 t.month ++ fmt2 t.day ++ "-" ++
    fmt2 t.hour ++ fmt2 t.minute ++ fmt2 t.second

/-- `GLOBAL_LOG_DIR = Path.home() / ".cache" / "gptme" / "logs"`:
process-wide log directory under the user's cache area, not inside
any workspace. -/
def globalLogDir (home : String) : String :=
  home ++ "/.cache/gptme/logs"

/-- Ambient system state an adapter invocation observes: `shutil.which`,
filesystem existence (for the codex fallback locations), `os.environ`,
the home directory, the process id and the formatted timestamp taken
at entry. -/
structure Sys where
  which : String → Option String
  fileExists : String → Bool
  osEnviron : EnvMap
  home : String
  pid : Nat
  timestamp : String

/-- Observable effects of one adapter invocation. -/
structure Effects where
  result : Except PyErr ExecutionResult
  cmd : List String
  stdinInput : Option String
  childEnv : EnvMap
  startedChild : Bool
  logFileName : String
  logPath : String
  logWritten : Bool
  log : String
  stderrDiag : Option String
  tempPromptFile : Option String
  tempPromptFileStillThere : Bool

/-- Arguments of `execute_gptme` (defaults as in the Python signature). -/
structure GptmeArgs where
  prompt : String
  workspace : String
  timeout : Nat
  non_interactive : Bool := true
  shell_timeout : Nat := 120
  env : EnvMap := fun _ => none
  run_type : String := "run"
  tools : Option String := none

/-- World of one `execute_gptme` invocation: the ambient system, how
the teed child pipeline turns out, and whether the child itself
removed the temporary prompt file (the `finally:` block re-checks
existence before unlinking). -/
structure GptmeWorld where
  sys : Sys
  run : ChildRun
  childDeletesPromptFile : Bool := false

/-- `workspace / f".gptme-prompt-{os.getpid()}.txt"`. -/
def gptmePromptFile (workspace : String) (pid : Nat) : String :=
  workspace ++ "/.gptme-prompt-" ++ toString pid ++ ".txt"

/-- The gptme command line (execution.py lines 128-139): the resolved
executable, `--non-interactive` if requested, `--tools TOOLS` if
given, the literal quoted marker string, then the prompt-file path. -/
def gptmeCmd (gptmePath : String) (non_interactive : Bool)
    (tools : Option String) (promptFile : String) : List String :=
  [gptmePath] ++
  (if non_interactive then ["--non-interactive"] else []) ++
  (match tools with
   | some t => ["--tools", t]
   | none => []) ++
  ["\x27Here is the prompt to follow:\x27", promptFile]

/-- The gptme child environment (lines 141-147): `os.environ.copy()`,
then `GPTME_SHELL_TIMEOUT` and `GPTME_CHAT_HISTORY` are set, then the
caller's `env` dict is applied by `dict.update` (last, so it wins). -/
def gptmeRunEnv (osEnviron : EnvMap) (shell_timeout : Nat)
    (env : EnvMap) : EnvMap :=
  dictUpdate
    (setVar (setVar osEnviron "GPTME_SHELL_TIMEOUT" (toString shell_timeout))
      "GPTME_CHAT_HISTORY" "true")
    env

/-- The gptme log header (lines 155-161). -/
def gptmeLogHeader (run_type timestamp workspace cmdLine : String)
    (timeout shell_timeout : Nat) : String :=
  "=== " ++ run_type ++ " run at " ++ timestamp ++ " ===\n" ++
  "Working directory: " ++ workspace ++ "\n" ++
  "Command: " ++ cmdLine ++ "\n" ++
  "Timeout: " ++ toString timeout ++ "s\n" ++
  "Shell timeout: " ++ toString shell_timeout ++ "s\n\n" ++
  "=== Output ===\n"

/-- `execute_gptme` (execution.py lines 88-192).  In order: compute
the log-file name, write the temporary prompt file, then inside
`try:` resolve `gptme` via `shutil.which` only (raising RuntimeError
if absent), build the command, merge the environment, write the log
header, and run `cmd 2>&1 | tee log` through `/bin/sh` (shell=True,
NO pipefail) with the wall-clock timeout; on completion append the
exit-code trailer and return `ExecutionResult(returncode)`, on
`TimeoutExpired` append the timeout trailer, print a diagnostic to
stderr and return `ExecutionResult(124, timed_out=True)`; the
`finally:` block unlinks the prompt file if it still exists. -/
def execute_gptme (a : GptmeArgs) (w : GptmeWorld) : Effects :=
  let logName := a.run_type ++ "-" ++ w.sys.timestamp ++ ".log"
  let logPath := globalLogDir w.sys.home ++ "/" ++ logName
  let promptFile := gptmePromptFile a.workspace w.sys.pid
  match w.sys.which "gptme" with
  | none =>
    { result := .error (.runtimeError
        "gptme not found in PATH. Install with: pipx install gptme"),
      cmd := [], stdinInput := none, childEnv := fun _ => none,
      startedChild := false, logFileName := logName, logPath := logPath,
      logWritten := false, log := "", stderrDiag := none,
      tempPromptFile := some promptFile,
      tempPromptFileStillThere := false }
  | some gptmePath =>
    let cmd := gptmeCmd gptmePath a.non_interactive a.tools promptFile
    let runEnv := gptmeRunEnv w.sys.osEnviron a.shell_timeout a.env
    let header := gptmeLogHeader a.run_type w.sys.timestamp a.workspace
      (joinSpace cmd) a.timeout a.shell_timeout
    let logContent := applyFileOps (teeLogOps header false w.run a.timeout)
    let res : Except PyErr ExecutionResult :=
      match w.run with
      | .completed c t _ =>
        .ok (ExecutionResult.make (pipelineExit false c t))
      | .timedOut _ => .ok (ExecutionResult.make 124 true)
      | .raised m _ => .error (.other m)
    let diag : Option String :=
      match w.run with
      | .timedOut _ =>
        some ("ERROR: Execution timed out after " ++ toString a.timeout ++ "s")
      | _ => none
    { result := res, cmd := cmd, stdinInput := none, childEnv := runEnv,
      startedChild := true, logFileName := logName, logPath := logPath,
      logWritten := true, log := logContent, stderrDiag := diag,
      tempPromptFile := some promptFile,
      tempPromptFileStillThere :=
        if !w.childDeletesPromptFile then false else !w.childDeletesPromptFile }

/-- Arguments shared by `execute_claude_code` and `execute_codex`. -/
structure StdArgs where
  prompt : String
  workspace : String
  timeout : Nat
  env : EnvMap := fun _ => none
  run_type : String := "run"

/-- World of one `execute_claude_code` / `execute_codex` invocation. -/
structure PipedWorld where
  sys : Sys
  ctx : CtxWorld
  run : ChildRun

/-- `--max-budget-usd` flag segment (lines 243-245): appended exactly
when `CLAUDE_MAX_BUDGET_USD` is set non-empty in `os.environ`. -/
def claudeBudgetArgs (osEnviron : EnvMap) : List String :=
  match getTruthy osEnviron "CLAUDE_MAX_BUDGET_USD" with
  | some v => ["--max-budget-usd", v]
  | none => []

/-- `--max-turns` flag segment (lines 247-249). -/
def claudeTurnsArgs (osEnviron : EnvMap) : List String :=
  match getTruthy osEnviron "CLAUDE_MAX_TURNS" with
  | some v => ["--max-turns", v]
  | none => []

/-- `--model` flag segment for claude (lines 251-253). -/
def claudeModelArgs (osEnviron : EnvMap) : List String :=
  match getTruthy osEnviron "CLAUDE_MODEL" with
  | some v => ["--model", v]
  | none => []

/-- Context-injection segment for claude (lines 238-240): the
compiled context is passed as `--append-system-prompt CONTEXT` when
non-empty. -/
def claudeCtxArgs (context : String) : List String :=
  if context ≠ "" then ["--append-system-prompt", context] else []

/-- The full claude command line (lines 229-253). -/
def claudeCmd (claudePath context : String) (osEnviron : EnvMap) :
    List String :=
  [claudePath, "--print", "--output-format", "stream-json", "--verbose",
    "--dangerously-skip-permissions"] ++
  claudeCtxArgs context ++
  claudeBudgetArgs osEnviron ++
  claudeTurnsArgs osEnviron ++
  claudeModelArgs osEnviron

/-- The claude child environment (lines 255-260): `os.environ.copy()`,
then `BASH_ENV` is set to `~/.bashrc`, then the caller's `env` dict
is applied last. -/
def claudeRunEnv (osEnviron : EnvMap) (home : String) (env : EnvMap) :
    EnvMap :=
  dictUpdate (setVar osEnviron "BASH_ENV" (home ++ "/.bashrc")) env

/-- The claude log header (lines 269-275), including the
context-compiled flag. -/
def claudeLogHeader (run_type timestamp workspace cmdStr : String)
    (contextCompiled : Bool) (timeout : Nat) : String :=
  "=== " ++ run_type ++ " claude-code run at " ++ timestamp ++ " ===\n" ++
  "Working directory: " ++ workspace ++ "\n" ++
  "Command: " ++ cmdStr ++ "\n" ++
  "Context compiled: " ++ (if contextCompiled then "yes" else "no") ++ "\n" ++
  "Timeout: " ++ toString timeout ++ "s\n\n" ++
  "=== Output ===\n"

/-- `execute_claude_code` (execution.py lines 195-301).  In order:
compute the log name, resolve `claude` via `shutil.which` only
(raising before anything else runs), compile the workspace context
with runtime "Claude Code" and instruction doc `CLAUDE.md`, build the
command (context via `--append-system-prompt`), merge the
environment, write the header, and run
`set -o pipefail; cmd 2>&1 | tee log` under `bash -c` with the prompt
piped via stdin; trailer and result as for gptme. -/
def execute_claude_code (a : StdArgs) (w : PipedWorld) : Effects :=
  let logName := a.run_type ++ "-claude-" ++ w.sys.timestamp ++ ".log"
  let logPath := globalLogDir w.sys.home ++ "/" ++ logName
  match w.sys.which "claude" with
  | none =>
    { result := .error (.runtimeError
        "claude not found in PATH. Install Claude Code CLI first."),
      cmd := [], stdinInput := none, childEnv := fun _ => none,
      startedChild := false, logFileName := logName, logPath := logPath,
      logWritten := false, log := "", stderrDiag := none,
      tempPromptFile := none, tempPromptFileStillThere := false }
  | some claudePath =>
    let context := compile_context w.ctx
    let cmd := claudeCmd claudePath context w.sys.osEnviron
    let runEnv := claudeRunEnv w.sys.osEnviron w.sys.home a.env
    let header := claudeLogHeader a.run_type w.sys.timestamp a.workspace
      (shlexJoin cmd) (context ≠ "") a.timeout
    let logContent := applyFileOps (teeLogOps header true w.run a.timeout)
    let res : Except PyErr ExecutionResult :=
      match w.run with
      | .completed c t _ =>
        .ok (ExecutionResult.make (pipelineExit true c t))
      | .timedOut _ => .ok (ExecutionResult.make 124 true)
      | .raised m _ => .error (.other m)
    let diag : Option String :=
      match w.run with
      | .timedOut _ =>
        some ("ERROR: Claude Code execution timed out after " ++
          toString a.timeout ++ "s")
      | _ => none
    { result := res, cmd := cmd, stdinInput := some a.prompt,
      childEnv := runEnv, startedChild := true, logFileName := logName,
      logPath := logPath, logWritten := true, log := logContent,
      stderrDiag := diag, tempPromptFile := none,
      tempPromptFileStillThere := false }

/-- Codex executable resolution (lines 331-341): `shutil.which`
first, then the fixed fallback locations `~/.local/bin/codex` and
`/usr/local/bin/codex`, in that order. -/
def resolveCodex (which : String → Option String)
    (fileExists : String → Bool) (home : String) : Option String :=
  match which "codex" with
  | some p => some p
  | none =>
    if fileExists (home ++ "/.local/bin/codex") then
      some (home ++ "/.local/bin/codex")
    else if fileExists "/usr/local/bin/codex" then
      some "/usr/local/bin/codex"
    else none

/-- Sandbox flag segment for codex (lines 355-359): `--sandbox VALUE`
when `CODEX_SANDBOX` is set non-empty, otherwise
`--dangerously-bypass-approvals-and-sandbox`. -/
def codexSandboxArgs (osEnviron : EnvMap) : List String :=
  match getTruthy osEnviron "CODEX_SANDBOX" with
  | some v => ["--sandbox", v]
  | none => ["--dangerously-bypass-approvals-and-sandbox"]

/-- `--model` flag segment for codex (lines 361-363). -/
def codexModelArgs (osEnviron : EnvMap) : List String :=
  match getTruthy osEnviron "CODEX_MODEL" with
  | some v => ["--model", v]
  | none => []

/-- The full codex command line (lines 353-363). -/
def codexCmd (codexPath workspace : String) (osEnviron : EnvMap) :
    List String :=
  [codexPath, "exec", "-C", workspace, "--json", "-"] ++
  codexSandboxArgs osEnviron ++
  codexModelArgs osEnviron

/-- The codex child environment (lines 365-368): `os.environ.copy()`
then the caller's `env` dict applied last; no backend-mandated vars. -/
def codexRunEnv (osEnviron : EnvMap) (env : EnvMap) : EnvMap :=
  dictUpdate osEnviron env

/-- The combined stdin payload for codex (lines 346-350): the
compiled context is prepended as a block before the prompt when
non-empty. -/
def codexCombinedPrompt (context prompt : String) : String :=
  if context ≠ "" then context ++ "\n---\n\n" ++ prompt else prompt

/-- The codex log header (lines 377-383). -/
def codexLogHeader (run_type timestamp workspace cmdStr : String)
    (contextCompiled : Bool) (timeout : Nat) : String :=
  "=== " ++ run_type ++ " codex run at " ++ timestamp ++ " ===\n" ++
  "Working directory: " ++ workspace ++ "\n" ++
  "Command: " ++ cmdStr ++ "\n" ++
  "Context compiled: " ++ (if contextCompiled then "yes" else "no") ++ "\n" ++
  "Timeout: " ++ toString timeout ++ "s\n\n" ++
  "=== Output ===\n"

/-- `execute_codex` (execution.py lines 304-407).  In order: compute
the log name, resolve `codex` via PATH then the fixed fallback
locations (raising before anything else if unresolved), compile the
workspace context with runtime "Codex" and instruction doc
`AGENTS.md`, prepend it to the prompt, build the command, merge the
environment, write the header, and run
`set -o pipefail; cmd 2>&1 | tee log` under `bash -c` with the
combined prompt piped via stdin; trailer and result as for gptme. -/
def execute_codex (a : StdArgs) (w : PipedWorld) : Effects :=
  let logName := a.run_type ++ "-codex-" ++ w.sys.timestamp ++ ".log"
  let logPath := globalLogDir w.sys.home ++ "/" ++ logName
  match resolveCodex w.sys.which w.sys.fileExists w.sys.home with
  | none =>
    { result := .error (.runtimeError
        "codex not found in PATH or common install locations."),
      cmd := [], stdinInput := none, childEnv := fun _ => none,
      startedChild := false, logFileName := logName, logPath := logPath,
      logWritten := false, log := "", stderrDiag := none,
      tempPromptFile := none, tempPromptFileStillThere := false }
  | some codexPath =>
    let context := compile_context w.ctx
    let combined := codexCombinedPrompt context a.prompt
    let cmd := codexCmd codexPath a.workspace w.sys.osEnviron
    let runEnv := codexRunEnv w.sys.osEnviron a.env
    let header := codexLogHeader a.run_type w.sys.timestamp a.workspace
      (shlexJoin cmd) (context ≠ "") a.timeout
    let logContent := applyFileOps (teeLogOps header true w.run a.timeout)
    let res : Except PyErr ExecutionResult :=
      match w.run with
      | .completed c t _ =>
        .ok (ExecutionResult.make (pipelineExit true c t))
      | .timedOut _ => .ok (ExecutionResult.make 124 true)
      | .raised m _ => .error (.other m)
    let diag : Option String :=
      match w.run with
      | .timedOut _ =>
        some ("ERROR: Codex execution timed out after " ++
          toString a.timeout ++ "s")
      | _ => none
    { result := res, cmd := cmd, stdinInput := some combined,
      childEnv := runEnv, startedChild := true, logFileName := logName,
      logPath := logPath, logWritten := true, log := logContent,
      stderrDiag := diag, tempPromptFile := none,
      tempPromptFileStillThere := false }


/-- Equality on adapter results is decidable (for concrete
evaluations). -/
instance : DecidableEq (Except PyErr ExecutionResult) := by
  intro a b
  cases a <;> cases b
  case ok.ok x y => exact decidable_of_iff (x = y) (by simp)
  case error.error x y => exact decidable_of_iff (x = y) (by simp)
  all_goals exact isFalse (by intro h; cases h)

/-- The four failure cases make `compile_context` degrade to `""`. -/
theorem compile_context_of_fails (w : CtxWorld) (h : ctxFails w = true) :
    compile_context w = "" := by
  unfold ctxFails at h
  unfold compile_context compile_context_try
  cases hs : w.scriptExists with
  | false => simp
  | true =>
    simp only [hs, Bool.not_true, Bool.false_or] at h
    cases hr : w.run with
    | completed rc e =>
      rw [hr] at h
      simp only [hs, Bool.not_true, Bool.false_eq_true, if_false]
      rcases Bool.or_eq_true_iff.mp h with h1 | h1
      · simp [bne_iff_ne.mp h1]
      · cases ha : w.artifactExists with
        | false => simp [ha]
        | true => rw [ha] at h1; simp at h1
    | timedOut => simp [hr, hs]
    | raised m => simp [hr, hs]

/-- The claude adapter is extensionally unaffected by a context
world whose compilation degrades to the empty string. -/
theorem execute_claude_ctx_empty (a : StdArgs) (sys : Sys)
    (cw : CtxWorld) (runc : ChildRun) (h : compile_context cw = "") :
    execute_claude_code a ⟨sys, cw, runc⟩ =
      execute_claude_code a ⟨sys, emptyCtxWorld, runc⟩ := by
  unfold execute_claude_code
  simp only [h, show compile_context emptyCtxWorld = "" from rfl]

/-- The codex adapter is extensionally unaffected by a failing
context world. -/
theorem execute_codex_ctx_empty (a : StdArgs) (sys : Sys)
    (cw : CtxWorld) (runc : ChildRun) (h : compile_context cw = "") :
    execute_codex a ⟨sys, cw, runc⟩ =
      execute_codex a ⟨sys, emptyCtxWorld, runc⟩ := by
  unfold execute_codex
  simp only [h, show compile_context emptyCtxWorld = "" from rfl]

/-- Claim C2: for every workspace, `compile_context` returns the empty
string and never raises (it is a total function into `String`) in each
of the four failure cases — compiler script absent, script exit
non-zero, script timeout, declared output artifact missing — and with
a failing context world each piped backend adapter behaves exactly as
with no additional context, so no adapter raises due to context
compilation. -/
theorem claim_c2_context_degrades_to_empty (w : CtxWorld) :
    (w.scriptExists = false → compile_context w = "") ∧
    (∀ rc e, w.run = .completed rc e → rc ≠ 0 → compile_context w = "") ∧
    (w.run = .timedOut → compile_context w = "") ∧
    (∀ e, w.run = .completed 0 e → w.artifactExists = false →
      compile_context w = "") ∧
    (∀ a sys runc, ctxFails w = true →
      execute_claude_code a ⟨sys, w, runc⟩ =
        execute_claude_code a ⟨sys, emptyCtxWorld, runc⟩ ∧
      execute_codex a ⟨sys, w, runc⟩ =
        execute_codex a ⟨sys, emptyCtxWorld, runc⟩) := by
  refine ⟨?_, ?_, ?_, ?_, ?_⟩
  · intro hs
    apply compile_context_of_fails
    unfold ctxFails
    simp [hs]
  · intro rc e hr hrc
    apply compile_context_of_fails
    unfold ctxFails
    simp [hr, bne_iff_ne, hrc]
  · intro hr
    apply compile_context_of_fails
    unfold ctxFails
    simp [hr]
  · intro e hr ha
    apply compile_context_of_fails
    unfold ctxFails
    simp [hr, ha]
  · intro a sys runc hf
    exact ⟨execute_claude_ctx_empty a sys w runc (compile_context_of_fails w hf),
      execute_codex_ctx_empty a sys w runc (compile_context_of_fails w hf)⟩

/-- Witness for C2: concrete failing context world (script absent). -/
theorem claim_c2_witness :
    compile_context ⟨false, .completed 0 "", true, "some context"⟩ = "" :=
  (claim_c2_context_degrades_to_empty
    ⟨false, .completed 0 "", true, "some context"⟩).1 rfl

/-- Claim C3: for every invocation of `execute_gptme`, the temporary
prompt file it creates in the workspace does not exist after the call
returns or raises, on every exit path: normal completion, timeout,
gptme-not-found RuntimeError, and any exception raised by the child
run — the `finally:` block unlinks it whenever it still exists. -/
theorem claim_c3_prompt_file_removed (a : GptmeArgs) (w : GptmeWorld) :
    (execute_gptme a w).tempPromptFileStillThere = false := by
  unfold execute_gptme
  cases hw : w.sys.which "gptme" with
  | none => rfl
  | some p =>
    cases hb : w.childDeletesPromptFile <;> simp [hb]

/-- Claim C4: every adapter raises a RuntimeError before starting any
child process when its backend executable cannot be resolved; gptme
(and claude) resolve via `shutil.which` alone — the quantification
over arbitrary `fileExists` shows no fallback location is consulted —
while codex falls back from PATH to `~/.local/bin/codex` and then
`/usr/local/bin/codex`, in that order. -/
theorem claim_c4_executable_resolution :
    (∀ (a : GptmeArgs) (w : GptmeWorld), w.sys.which "gptme" = none →
      (execute_gptme a w).result = .error (.runtimeError
        "gptme not found in PATH. Install with: pipx install gptme") ∧
      (execute_gptme a w).startedChild = false) ∧
    (∀ (a : StdArgs) (w : PipedWorld), w.sys.which "claude" = none →
      (execute_claude_code a w).result = .error (.runtimeError
        "claude not found in PATH. Install Claude Code CLI first.") ∧
      (execute_claude_code a w).startedChild = false) ∧
    (∀ (a : StdArgs) (w : PipedWorld),
      resolveCodex w.sys.which w.sys.fileExists w.sys.home = none →
      (execute_codex a w).result = .error (.runtimeError
        "codex not found in PATH or common install locations.") ∧
      (execute_codex a w).startedChild = false) ∧
    (∀ (which : String → Option String) (fe : String → Bool) (home p : String),
      which "codex" = some p → resolveCodex which fe home = some p) ∧
    (∀ (which : String → Option String) (fe : String → Bool) (home : String),
      which "codex" = none → fe (home ++ "/.local/bin/codex") = true →
      resolveCodex which fe home = some (home ++ "/.local/bin/codex")) ∧
    (∀ (which : String → Option String) (fe : String → Bool) (home : String),
      which "codex" = none → fe (home ++ "/.local/bin/codex") = false →
      fe "/usr/local/bin/codex" = true →
      resolveCodex which fe home = some "/usr/local/bin/codex") ∧
    (∀ (which : String → Option String) (fe : String → Bool) (home : String),
      which "codex" = none → fe (home ++ "/.local/bin/codex") = false →
      fe "/usr/local/bin/codex" = false →
      resolveCodex which fe home = none) := by
  refine ⟨?_, ?_, ?_, ?_, ?_, ?_, ?_⟩
  · intro a w hw
    unfold execute_gptme
    simp [hw]
  · intro a w hw
    unfold execute_claude_code
    simp [hw]
  · intro a w hw
    unfold execute_codex
    simp [hw]
  · intro which fe home p hw
    unfold resolveCodex
    simp [hw]
  · intro which fe home hw h1
    unfold resolveCodex
    simp [hw, h1]
  · intro which fe home hw h1 h2
    unfold resolveCodex
    simp [hw, h1, h2]
  · intro which fe home hw h1 h2
    unfold resolveCodex
    simp [hw, h1, h2]

/-- Witness for C4: a concrete system with empty PATH and no fallback
files makes `execute_gptme` fail fast without starting a child. -/
theorem claim_c4_witness :
    (execute_gptme { prompt := "p", workspace := "/ws", timeout := 10 }
      ⟨⟨fun _ => none, fun _ => false, fun _ => none, "/home/u", 42,
        "20250101-120000"⟩, .completed 0 0 "", false⟩).startedChild = false :=
  ((claim_c4_executable_resolution.1)
    { prompt := "p", workspace := "/ws", timeout := 10 }
    ⟨⟨fun _ => none, fun _ => false, fun _ => none, "/home/u", 42,
      "20250101-120000"⟩, .completed 0 0 "", false⟩ rfl).2

/-- Claim C10: in every adapter's merged child environment the
caller-supplied `env` dict is applied last (`run_env.update(env)`),
so for any key it contains the child sees the caller's value, in
preference to both the inherited `os.environ` and the
backend-mandated variables. -/
theorem claim_c10_caller_env_wins :
    (∀ (a : GptmeArgs) (w : GptmeWorld) (p k v : String),
      w.sys.which "gptme" = some p → a.env k = some v →
      (execute_gptme a w).childEnv k = some v) ∧
    (∀ (a : StdArgs) (w : PipedWorld) (p k v : String),
      w.sys.which "claude" = some p → a.env k = some v →
      (execute_claude_code a w).childEnv k = some v) ∧
    (∀ (a : StdArgs) (w : PipedWorld) (p k v : String),
      resolveCodex w.sys.which w.sys.fileExists w.sys.home = some p →
      a.env k = some v → (execute_codex a w).childEnv k = some v) ∧
    (∀ (osE : EnvMap) (st : Nat) (env : EnvMap) (k v : String),
      env k = some v → gptmeRunEnv osE st env k = some v) ∧
    (∀ (osE : EnvMap) (home : String) (env : EnvMap) (k v : String),
      env k = some v → claudeRunEnv osE home env k = some v) ∧
    (∀ (osE env : EnvMap) (k v : String),
      env k = some v → codexRunEnv osE env k = some v) := by
  refine ⟨?_, ?_, ?_, ?_, ?_, ?_⟩
  · intro a w p k v hw hk
    unfold execute_gptme
    simp only [hw]
    simp [gptmeRunEnv, dictUpdate, hk]
  · intro a w p k v hw hk
    unfold execute_claude_code
    simp only [hw]
    simp [claudeRunEnv, dictUpdate, hk]
  · intro a w p k v hw hk
    unfold execute_codex
    simp only [hw]
    simp [codexRunEnv, dictUpdate, hk]
  · intro osE st env k v hk
    simp [gptmeRunEnv, dictUpdate, hk]
  · intro osE home env k v hk
    simp [claudeRunEnv, dictUpdate, hk]
  · intro osE env k v hk
    simp [codexRunEnv, dictUpdate, hk]

/-- Witness for C10: a caller override of the backend-mandated
`GPTME_SHELL_TIMEOUT` is what the gptme child sees. -/
theorem claim_c10_witness :
    (execute_gptme
      { prompt := "p", workspace := "/ws", timeout := 10,
        env := fun k => if k = "GPTME_SHELL_TIMEOUT" then some "7" else none }
      ⟨⟨fun s => if s = "gptme" then some "/usr/bin/gptme" else none,
        fun _ => false, fun _ => some "inherited", "/home/u", 42,
        "20250101-120000"⟩, .completed 0 0 "", false⟩).childEnv
      "GPTME_SHELL_TIMEOUT" = some "7" :=
  claim_c10_caller_env_wins.1
    { prompt := "p", workspace := "/ws", timeout := 10,
      env := fun k => if k = "GPTME_SHELL_TIMEOUT" then some "7" else none }
    ⟨⟨fun s => if s = "gptme" then some "/usr/bin/gptme" else none,
      fun _ => false, fun _ => some "inherited", "/home/u", 42,
      "20250101-120000"⟩, .completed 0 0 "", false⟩
    "/usr/bin/gptme" "GPTME_SHELL_TIMEOUT" "7" (by decide) (by decide)

/-- Counterexample to C5 as stated: at the concrete environment with
no overrides set, the codex adapter still appends a sandbox-mode flag
(`--dangerously-bypass-approvals-and-sandbox`) to the command line,
so "when an override is absent, no flag is appended for it, and the
backend's own default applies" is false for the sandbox override. -/
theorem claim_c5_counterexample :
    codexSandboxArgs (fun _ => none) =
      ["--dangerously-bypass-approvals-and-sandbox"] ∧
    codexSandboxArgs (fun _ => none) ≠ [] ∧
    (execute_codex { prompt := "p", workspace := "/ws", timeout := 10 }
      ⟨⟨fun s => if s = "codex" then some "/usr/bin/codex" else none,
        fun _ => false, fun _ => none, "/home/u", 42, "20250101-120000"⟩,
        emptyCtxWorld, .completed 0 0 ""⟩).cmd =
      ["/usr/bin/codex", "exec", "-C", "/ws", "--json", "-",
       "--dangerously-bypass-approvals-and-sandbox"] := by
  refine ⟨by decide, by decide, by decide⟩

/-- Claim C5 as amended: each model/budget/turn flag is appended to
the command line iff its environment override is present AND
non-empty (Python truthiness); for the codex sandbox mode,
`--sandbox VALUE` is appended iff `CODEX_SANDBOX` is present
non-empty, and otherwise `--dangerously-bypass-approvals-and-sandbox`
is appended in its place, overriding the backend's own default.
The last two conjuncts tie the flag segments to the command line the
adapters actually run. -/
theorem claim_c5_env_flags_amended (osE : EnvMap) :
    (∀ v, osE "CLAUDE_MAX_BUDGET_USD" = some v → v ≠ "" →
      claudeBudgetArgs osE = ["--max-budget-usd", v]) ∧
    (osE "CLAUDE_MAX_BUDGET_USD" = none ∨
      osE "CLAUDE_MAX_BUDGET_USD" = some "" → claudeBudgetArgs osE = []) ∧
    (∀ v, osE "CLAUDE_MAX_TURNS" = some v → v ≠ "" →
      claudeTurnsArgs osE = ["--max-turns", v]) ∧
    (osE "CLAUDE_MAX_TURNS" = none ∨ osE "CLAUDE_MAX_TURNS" = some "" →
      claudeTurnsArgs osE = []) ∧
    (∀ v, osE "CLAUDE_MODEL" = some v → v ≠ "" →
      claudeModelArgs osE = ["--model", v]) ∧
    (osE "CLAUDE_MODEL" = none ∨ osE "CLAUDE_MODEL" = some "" →
      claudeModelArgs osE = []) ∧
    (∀ v, osE "CODEX_MODEL" = some v → v ≠ "" →
      codexModelArgs osE = ["--model", v]) ∧
    (osE "CODEX_MODEL" = none ∨ osE "CODEX_MODEL" = some "" →
      codexModelArgs osE = []) ∧
    (∀ v, osE "CODEX_SANDBOX" = some v → v ≠ "" →
      codexSandboxArgs osE = ["--sandbox", v]) ∧
    (osE "CODEX_SANDBOX" = none ∨ osE "CODEX_SANDBOX" = some "" →
      codexSandboxArgs osE = ["--dangerously-bypass-approvals-and-sandbox"]) ∧
    (∀ (a : StdArgs) (w : PipedWorld) p, w.sys.osEnviron = osE →
      w.sys.which "claude" = some p →
      (execute_claude_code a w).cmd =
        claudeCmd p (compile_context w.ctx) osE) ∧
    (∀ (a : StdArgs) (w : PipedWorld) p, w.sys.osEnviron = osE →
      resolveCodex w.sys.which w.sys.fileExists w.sys.home = some p →
      (execute_codex a w).cmd = codexCmd p a.workspace osE) := by
  refine ⟨?_, ?_, ?_, ?_, ?_, ?_, ?_, ?_, ?_, ?_, ?_, ?_⟩
  · intro v hv hne
    simp [claudeBudgetArgs, getTruthy, hv, hne]
  · rintro (hv | hv) <;> simp [claudeBudgetArgs, getTruthy, hv]
  · intro v hv hne
    simp [claudeTurnsArgs, getTruthy, hv, hne]
  · rintro (hv | hv) <;> simp [claudeTurnsArgs, getTruthy, hv]
  · intro v hv hne
    simp [claudeModelArgs, getTruthy, hv, hne]
  · rintro (hv | hv) <;> simp [claudeModelArgs, getTruthy, hv]
  · intro v hv hne
    simp [codexModelArgs, getTruthy, hv, hne]
  · rintro (hv | hv) <;> simp [codexModelArgs, getTruthy, hv]
  · intro v hv hne
    simp [codexSandboxArgs, getTruthy, hv, hne]
  · rintro (hv | hv) <;> simp [codexSandboxArgs, getTruthy, hv]
  · intro a w p hos hw
    unfold execute_claude_code
    simp [hw, hos]
  · intro a w p hos hw
    unfold execute_codex
    simp [hw, hos]

/-- Witness for the amended C5: with `CODEX_SANDBOX=workspace-write`
and no claude overrides, the sandbox flag carries the override value
and the budget flag is absent. -/
theorem claim_c5_witness :
    codexSandboxArgs
      (fun k => if k = "CODEX_SANDBOX" then some "workspace-write"
        else none) = ["--sandbox", "workspace-write"] ∧
    claudeBudgetArgs
      (fun k => if k = "CODEX_SANDBOX" then some "workspace-write"
        else none) = [] :=
  ⟨(claim_c5_env_flags_amended
      (fun k => if k = "CODEX_SANDBOX" then some "workspace-write"
        else none)).2.2.2.2.2.2.2.2.1 "workspace-write" (by decide) (by decide),
   (claim_c5_env_flags_amended
      (fun k => if k = "CODEX_SANDBOX" then some "workspace-write"
        else none)).2.1 (Or.inl (by decide))⟩

/-- Claim C6: each backend has exactly one fixed context-injection and
prompt-delivery mode.  claude-code: compiled context as the dedicated
`--append-system-prompt` argument and the prompt piped via stdin, no
temporary prompt file; codex: compiled context prepended as a block
(`context\n---\n\nprompt`) before the prompt and the combined text
piped via stdin, no temporary prompt file; gptme: no stdin input at
all, the prompt delivered as the path of the just-written temporary
file on the command line. -/
theorem claim_c6_injection_modes :
    (∀ (a : StdArgs) (w : PipedWorld) p, w.sys.which "claude" = some p →
      (execute_claude_code a w).stdinInput = some a.prompt ∧
      (execute_claude_code a w).tempPromptFile = none ∧
      (compile_context w.ctx ≠ "" →
        (execute_claude_code a w).cmd =
          [p, "--print", "--output-format", "stream-json", "--verbose",
           "--dangerously-skip-permissions", "--append-system-prompt",
           compile_context w.ctx] ++
          claudeBudgetArgs w.sys.osEnviron ++
          claudeTurnsArgs w.sys.osEnviron ++
          claudeModelArgs w.sys.osEnviron)) ∧
    (∀ (a : StdArgs) (w : PipedWorld) p,
      resolveCodex w.sys.which w.sys.fileExists w.sys.home = some p →
      (execute_codex a w).stdinInput =
        some (codexCombinedPrompt (compile_context w.ctx) a.prompt) ∧
      (compile_context w.ctx ≠ "" →
        (execute_codex a w).stdinInput =
          some (compile_context w.ctx ++ "\n---\n\n" ++ a.prompt)) ∧
      (compile_context w.ctx = "" →
        (execute_codex a w).stdinInput = some a.prompt) ∧
      (execute_codex a w).tempPromptFile = none) ∧
    (∀ (a : GptmeArgs) (w : GptmeWorld) p, w.sys.which "gptme" = some p →
      (execute_gptme a w).stdinInput = none ∧
      gptmePromptFile a.workspace w.sys.pid ∈ (execute_gptme a w).cmd ∧
      (execute_gptme a w).tempPromptFile =
        some (gptmePromptFile a.workspace w.sys.pid)) := by
  refine ⟨?_, ?_, ?_⟩
  · intro a w p hw
    unfold execute_claude_code
    simp only [hw]
    refine ⟨trivial, trivial, ?_⟩
    intro hctx
    simp [claudeCmd, claudeCtxArgs, hctx]
  · intro a w p hw
    unfold execute_codex
    simp only [hw]
    refine ⟨trivial, ?_, ?_, trivial⟩
    · intro hctx
      simp [codexCombinedPrompt, hctx]
    · intro hctx
      simp [codexCombinedPrompt, hctx]
  · intro a w p hw
    unfold execute_gptme
    simp only [hw]
    refine ⟨trivial, ?_, trivial⟩
    simp [gptmeCmd]

/-- Witness for C6: concrete invocations of all three adapters with a
compiled context "CTX" and prompt "hi". -/
theorem claim_c6_witness :
    (execute_claude_code { prompt := "hi", workspace := "/ws", timeout := 10 }
      ⟨⟨fun s => if s = "claude" then some "/usr/bin/claude" else none,
        fun _ => false, fun _ => none, "/home/u", 42, "20250101-120000"⟩,
        ⟨true, .completed 0 "", true, "CTX"⟩,
        .completed 0 0 ""⟩).stdinInput = some "hi" ∧
    (execute_codex { prompt := "hi", workspace := "/ws", timeout := 10 }
      ⟨⟨fun s => if s = "codex" then some "/usr/bin/codex" else none,
        fun _ => false, fun _ => none, "/home/u", 42, "20250101-120000"⟩,
        ⟨true, .completed 0 "", true, "CTX"⟩,
        .completed 0 0 ""⟩).stdinInput = some "CTX\n---\n\nhi" ∧
    (execute_gptme { prompt := "hi", workspace := "/ws", timeout := 10 }
      ⟨⟨fun s => if s = "gptme" then some "/usr/bin/gptme" else none,
        fun _ => false, fun _ => none, "/home/u", 42, "20250101-120000"⟩,
        .completed 0 0 "", false⟩).stdinInput = none :=
  ⟨(claim_c6_injection_modes.1
      { prompt := "hi", workspace := "/ws", timeout := 10 }
      ⟨⟨fun s => if s = "claude" then some "/usr/bin/claude" else none,
        fun _ => false, fun _ => none, "/home/u", 42, "20250101-120000"⟩,
        ⟨true, .completed 0 "", true, "CTX"⟩, .completed 0 0 ""⟩
      "/usr/bin/claude" (by decide)).1,
   (claim_c6_injection_modes.2.1
      { prompt := "hi", workspace := "/ws", timeout := 10 }
      ⟨⟨fun s => if s = "codex" then some "/usr/bin/codex" else none,
        fun _ => false, fun _ => none, "/home/u", 42, "20250101-120000"⟩,
        ⟨true, .completed 0 "", true, "CTX"⟩, .completed 0 0 ""⟩
      "/usr/bin/codex" (by decide)).2.1 (by decide),
   (claim_c6_injection_modes.2.2
      { prompt := "hi", workspace := "/ws", timeout := 10 }
      ⟨⟨fun s => if s = "gptme" then some "/usr/bin/gptme" else none,
        fun _ => false, fun _ => none, "/home/u", 42, "20250101-120000"⟩,
        .completed 0 0 "", false⟩ "/usr/bin/gptme" (by decide)).1⟩

/-- Claim C1 evaluated at its failing input: the gptme child exits 3
while `tee` exits 0; `/bin/sh` (shell=True, no pipefail) reports the
pipeline status as tee's 0, so `execute_gptme` returns
`ExecutionResult(exit_code=0, timed_out=False, success=True)` instead
of carrying the child's real exit code 3.  (The timeout half of the
claim and the `success = (exit_code == 0)` derivation do hold; the
normal-completion half fails for the gptme backend.) -/
theorem claim_c1_gptme_masks_child_exit :
    (execute_gptme { prompt := "p", workspace := "/ws", timeout := 100 }
      ⟨⟨fun s => if s = "gptme" then some "/usr/bin/gptme" else none,
        fun _ => false, fun _ => none, "/home/u", 7, "20250101-120000"⟩,
        .completed 3 0 "out\n", false⟩).result =
      .ok ⟨0, false, true⟩ ∧
    pipelineExit false 3 0 = 0 ∧ (3 : Int) ≠ 0 := by
  refine ⟨by decide, by decide, by decide⟩

/-- Claim C9 evaluated at its failing input: with the child exiting 5
and tee exiting 0, `execute_gptme` (no `set -o pipefail`) observes
and stores exit code 0 — the teeing mechanism's status — while
`execute_claude_code` and `execute_codex` (which set pipefail)
observe and store the child's 5. -/
theorem claim_c9_gptme_pipeline_status :
    (execute_gptme { prompt := "p", workspace := "/ws", timeout := 100 }
      ⟨⟨fun s => if s = "gptme" then some "/usr/bin/gptme" else none,
        fun _ => false, fun _ => none, "/home/u", 7, "20250101-120000"⟩,
        .completed 5 0 "out\n", false⟩).result =
      .ok ⟨0, false, true⟩ ∧
    (execute_claude_code { prompt := "p", workspace := "/ws", timeout := 100 }
      ⟨⟨fun s => if s = "claude" then some "/usr/bin/claude" else none,
        fun _ => false, fun _ => none, "/home/u", 7, "20250101-120000"⟩,
        emptyCtxWorld, .completed 5 0 "out\n"⟩).result =
      .ok ⟨5, false, false⟩ ∧
    (execute_codex { prompt := "p", workspace := "/ws", timeout := 100 }
      ⟨⟨fun s => if s = "codex" then some "/usr/bin/codex" else none,
        fun _ => false, fun _ => none, "/home/u", 7, "20250101-120000"⟩,
        emptyCtxWorld, .completed 5 0 "out\n"⟩).result =
      .ok ⟨5, false, false⟩ := by
  refine ⟨by decide, by decide, by decide⟩

/-- Claim C7 evaluated at its failing input: a completed gptme run
with child output "hello\n".  The header block is written first with
`open("w")`, but `tee LOGFILE` (no `-a`) then truncates the log file
when the pipeline starts, so the final content is only the child
output followed by the exit-code trailer: the header (run name,
working directory, command, timeouts) is NOT present in the file
after the run. -/
theorem claim_c7_header_truncated_by_tee :
    (execute_gptme { prompt := "p", workspace := "/ws", timeout := 100 }
      ⟨⟨fun s => if s = "gptme" then some "/usr/bin/gptme" else none,
        fun _ => false, fun _ => none, "/home/u", 7, "20250101-120000"⟩,
        .completed 0 0 "hello\n", false⟩).log =
      "hello\n" ++ exitTrailer 0 ∧
    (execute_gptme { prompt := "p", workspace := "/ws", timeout := 100 }
      ⟨⟨fun s => if s = "gptme" then some "/usr/bin/gptme" else none,
        fun _ => false, fun _ => none, "/home/u", 7, "20250101-120000"⟩,
        .completed 0 0 "hello\n", false⟩).logWritten = true ∧
    containsStr
      (execute_gptme { prompt := "p", workspace := "/ws", timeout := 100 }
        ⟨⟨fun s => if s = "gptme" then some "/usr/bin/gptme" else none,
          fun _ => false, fun _ => none, "/home/u", 7, "20250101-120000"⟩,
          .completed 0 0 "hello\n", false⟩).log
      "Working directory" = false ∧
    containsStr
      (execute_gptme { prompt := "p", workspace := "/ws", timeout := 100 }
        ⟨⟨fun s => if s = "gptme" then some "/usr/bin/gptme" else none,
          fun _ => false, fun _ => none, "/home/u", 7, "20250101-120000"⟩,
          .completed 0 0 "hello\n", false⟩).log
      "=== Output ===" = false := by
  refine ⟨by decide, by decide, by decide, by decide⟩

/-- Counterexample to C8 as stated: at a concrete invocation the
gptme adapter's log-file name is `run-20250101-120000.log` — run name
and timestamp only — and contains no backend discriminator: none of
the backend identifiers occurs in it. -/
theorem claim_c8_counterexample :
    (execute_gptme { prompt := "p", workspace := "/ws", timeout := 100 }
      ⟨⟨fun s => if s = "gptme" then some "/usr/bin/gptme" else none,
        fun _ => false, fun _ => none, "/home/u", 7, "20250101-120000"⟩,
        .completed 0 0 "", false⟩).logFileName = "run-20250101-120000.log" ∧
    containsStr
      (execute_gptme { prompt := "p", workspace := "/ws", timeout := 100 }
        ⟨⟨fun s => if s = "gptme" then some "/usr/bin/gptme" else none,
          fun _ => false, fun _ => none, "/home/u", 7, "20250101-120000"⟩,
          .completed 0 0 "", false⟩).logFileName "gptme" = false ∧
    containsStr
      (execute_gptme { prompt := "p", workspace := "/ws", timeout := 100 }
        ⟨⟨fun s => if s = "gptme" then some "/usr/bin/gptme" else none,
          fun _ => false, fun _ => none, "/home/u", 7, "20250101-120000"⟩,
          .completed 0 0 "", false⟩).logFileName "claude" = false ∧
    containsStr
      (execute_gptme { prompt := "p", workspace := "/ws", timeout := 100 }
        ⟨⟨fun s => if s = "gptme" then some "/usr/bin/gptme" else none,
          fun _ => false, fun _ => none, "/home/u", 7, "20250101-120000"⟩,
          .completed 0 0 "", false⟩).logFileName "codex" = false := by
  refine ⟨by decide, by decide, by decide, by decide⟩

/-- Claim C8 as amended: every adapter invocation uses exactly one
log file under the process-wide directory `~/.cache/gptme/logs` in
the invoking user's cache area; the claude and codex file names are
`run_type-claude-timestamp.log` and `run_type-codex-timestamp.log`
(run name, backend discriminator, timestamp), while the gptme file
name is `run_type-timestamp.log` — run name and timestamp but NO
backend discriminator; the timestamp format
`%Y%m%d-%H%M%S` records seconds. -/
theorem claim_c8_log_naming_amended :
    (∀ (a : StdArgs) (w : PipedWorld),
      (execute_claude_code a w).logFileName =
        a.run_type ++ "-claude-" ++ w.sys.timestamp ++ ".log" ∧
      (execute_claude_code a w).logPath =
        globalLogDir w.sys.home ++ "/" ++
          (execute_claude_code a w).logFileName) ∧
    (∀ (a : StdArgs) (w : PipedWorld),
      (execute_codex a w).logFileName =
        a.run_type ++ "-codex-" ++ w.sys.timestamp ++ ".log" ∧
      (execute_codex a w).logPath =
        globalLogDir w.sys.home ++ "/" ++ (execute_codex a w).logFileName) ∧
    (∀ (a : GptmeArgs) (w : GptmeWorld),
      (execute_gptme a w).logFileName =
        a.run_type ++ "-" ++ w.sys.timestamp ++ ".log" ∧
      (execute_gptme a w).logPath =
        globalLogDir w.sys.home ++ "/" ++ (execute_gptme a w).logFileName) ∧
    (∀ t : Timestamp, fmtTimestamp t =
      (toString t.year ++ fmt2 t.month ++ fmt2 t.day ++ "-" ++
        fmt2 t.hour ++ fmt2 t.minute) ++ fmt2 t.second) ∧
    fmtTimestamp ⟨2025, 1, 1, 12, 0, 0⟩ ≠ fmtTimestamp ⟨2025, 1, 1, 12, 0, 1⟩ ∧
    (∀ home : String, globalLogDir home = home ++ "/.cache/gptme/logs") := by
  refine ⟨?_, ?_, ?_, ?_, by decide, fun _ => rfl⟩
  · intro a w
    unfold execute_claude_code
    cases hw : w.sys.which "claude" <;> simp [hw]
  · intro a w
    unfold execute_codex
    cases hw : resolveCodex w.sys.which w.sys.fileExists w.sys.home <;>
      simp [hw]
  · intro a w
    unfold execute_gptme
    cases hw : w.sys.which "gptme" <;> simp [hw]
  · intro t
    rfl
